import Mathlib

/-!
Shallow embedding of `src/plex_playlist.py` (Plex Playlist Manager CLI).

Python strings are modelled as lists of Unicode code points (`PyStr`);
`str.lower()` is modelled on the ASCII range (every keyword in the static
tables is ASCII), and Python's substring test `needle in hay` is list-infix
containment. Fatal `sys.exit(1)` paths are modelled with `Except.error`
carrying the echoed message; calls against the Plex server are modelled as an
explicit trace of server operations.
-/

namespace PlexPlaylist

/-- A Python string, as its list of Unicode code points. -/
abbrev PyStr := List Nat

/-- Transcription of a literal: the code points of a Lean string literal. -/
def str (s : String) : PyStr := s.data.map Char.toNat

/-- ASCII case folding of one code point, as Python lower-cases the
ASCII letters (all keywords in the static tables are ASCII). -/
def lowerChar (c : Nat) : Nat := if 65 ≤ c ∧ c ≤ 90 then c + 32 else c

/-- ASCII upper-casing of one code point. -/
def upperChar (c : Nat) : Nat := if 97 ≤ c ∧ c ≤ 122 then c - 32 else c

/-- Python `s.lower()` on the ASCII range. -/
def pyLower (s : PyStr) : PyStr := s.map lowerChar

/-- Python `s.upper()` on the ASCII range. -/
def pyUpper (s : PyStr) : PyStr := s.map upperChar

/-- Python substring membership `needle in hay`. -/
def pyIn (needle hay : PyStr) : Bool := decide (needle <:+: hay)

/-- One entry of the `THEMES` table (src lines 15-79): inclusion keywords,
exclusion keywords and a human-readable description. -/
structure Theme where
  keywords : List PyStr
  exclude : List PyStr
  description : PyStr
deriving DecidableEq

/-- The `christmas` entry of `THEMES` (src lines 16-29). -/
def christmas : Theme :=
  { keywords :=
      [ str "christmas", str "xmas", str "santa", str "santa's", str "scrooge",
        str "nutcracker", str "krampus", str "yuletide", str "rudolph",
        str "grinch", str "north pole", str "christmas eve",
        str "christmas tree", str "jingle", str "frosty the snowman",
        str "mistletoe", str "eggnog" ]
    exclude :=
      [ str "halloween", str "thanksgiving", str "easter", str "valentine",
        str "hanukkah", str "kwanzaa", str "columbus day",
        str "independence day", str "4th of july", str "new year",
        str "labor day", str "memorial day" ]
    description := str "Christmas and holiday episodes" }

/-- The `halloween` entry of `THEMES` (src lines 30-38). -/
def halloween : Theme :=
  { keywords :=
      [ str "halloween", str "spooky", str "haunted", str "ghost", str "witch",
        str "vampire", str "zombie", str "monster", str "trick or treat",
        str "costume", str "pumpkin", str "scary", str "horror",
        str "nightmare" ]
    exclude := [ str "christmas", str "thanksgiving" ]
    description := str "Halloween and spooky episodes" }

/-- The `thanksgiving` entry of `THEMES` (src lines 39-45). -/
def thanksgiving : Theme :=
  { keywords :=
      [ str "thanksgiving", str "turkey day", str "pilgrim",
        str "giving thanks" ]
    exclude := [ str "christmas" ]
    description := str "Thanksgiving episodes" }

/-- The `newyears` entry of `THEMES` (src lines 46-53). -/
def newyears : Theme :=
  { keywords :=
      [ str "new year", str "new year's", str "nye", str "december 31",
        str "january 1", str "midnight countdown", str "ball drop",
        str "auld lang syne" ]
    exclude := [ str "chinese new year", str "lunar new year" ]
    description := str "New Year's Eve/Day episodes" }

/-- The `hanukkah` entry of `THEMES` (src lines 54-62). -/
def hanukkah : Theme :=
  { keywords :=
      [ str "hanukkah", str "chanukah", str "hanukah", str "channukah",
        str "menorah", str "dreidel", str "latkes", str "maccabee",
        str "festival of lights", str "eight crazy nights" ]
    exclude := []
    description := str "Hanukkah episodes and movies" }

/-- The `valentine` entry of `THEMES` (src lines 63-70). -/
def valentine : Theme :=
  { keywords :=
      [ str "valentine", str "valentines", str "valentine's day", str "cupid",
        str "romantic", str "love day" ]
    exclude := []
    description := str "Valentine's Day episodes" }

/-- The `july4th` entry of `THEMES` (src lines 71-78). -/
def july4th : Theme :=
  { keywords :=
      [ str "4th of july", str "fourth of july", str "july fourth",
        str "july 4th", str "independence day", str "fireworks" ]
    exclude :=
      [ str "christmas", str "halloween", str "thanksgiving", str "alien",
        str "war of the worlds" ]
    description := str "4th of July / Independence Day episodes" }

/-- The `THEMES` dictionary (src lines 15-79), as an association list in
insertion order (Python dicts preserve insertion order). -/
def THEMES : List (PyStr × Theme) :=
  [ (str "christmas", christmas), (str "halloween", halloween),
    (str "thanksgiving", thanksgiving), (str "newyears", newyears),
    (str "hanukkah", hanukkah), (str "valentine", valentine),
    (str "july4th", july4th) ]

/-- The string `f"{title} {summary}".lower()` built by `matches_theme`
(src line 155): title, one space, summary, lower-cased. -/
def combined (title summary : PyStr) : PyStr :=
  pyLower (title ++ str " " ++ summary)

/-- The inner predicate `matches_theme(title, summary)` of
`find_themed_content` (src lines 154-167): any exclusion-keyword hit on the
lower-cased combined text returns false immediately; otherwise the result is
whether some inclusion keyword hits. -/
def matches_theme (theme : Theme) (title summary : PyStr) : Bool :=
  if theme.exclude.any (fun exc => pyIn (pyLower exc) (combined title summary)) then
    false
  else
    theme.keywords.any (fun kw => pyIn (pyLower kw) (combined title summary))

/-- A TV episode as read from the Plex client: title, summary and the season
and episode numbers used in progress output. -/
structure Episode where
  title : PyStr
  summary : PyStr
  seasonNumber : Nat
  episodeNumber : Nat
deriving DecidableEq

/-- A movie as read from the Plex client: title and summary (the fields the
theme selector reads). -/
structure Movie where
  title : PyStr
  summary : PyStr
deriving DecidableEq

/-- A media item collected into the `items` list: an episode or a movie. -/
inductive MediaItem where
  | episode (e : Episode)
  | movie (m : Movie)
deriving DecidableEq

/-- A TV show as read from the Plex client: its title and its episodes (in
the order `show.episodes()` enumerates them). -/
structure TVShow where
  title : PyStr
  episodes : List Episode
deriving DecidableEq

/-- A library section, tagged by its `type` attribute as the code tests it
("show", "movie", or anything else). -/
inductive LibSection where
  | showSection (title : PyStr) (shows : List TVShow)
  | movieSection (title : PyStr) (movies : List Movie)
  | otherSection (title : PyStr)
deriving DecidableEq

/-- The error signalled by the unknown-theme branch of `find_themed_content`
(src lines 143-146): the two echoed lines, then `sys.exit(1)`. -/
def availableThemesMessage : PyStr :=
  str "Available themes: " ++ List.intercalate (str ", ") (THEMES.map (fun t => t.1))

/-- The selector `find_themed_content(plex, theme_name, include_movies,
include_tv)` (src lines 141-192). An unknown theme name terminates fatally —
modelled as `Except.error` carrying the two echoed lines. Otherwise all
show-type sections are scanned (when `include_tv`), episodes matching the
theme are collected, then all movie-type sections (when `include_movies`);
items are appended in enumeration order. -/
def find_themed_content (sections : List LibSection) (theme_name : PyStr)
    (include_movies include_tv : Bool) : Except (PyStr × PyStr) (List MediaItem) :=
  match THEMES.lookup theme_name with
  | none => Except.error (str "Unknown theme: " ++ theme_name, availableThemesMessage)
  | some theme =>
      let tvItems : List MediaItem :=
        if include_tv then
          sections.flatMap (fun sec =>
            match sec with
            | LibSection.showSection _ shows =>
                shows.flatMap (fun sh =>
                  (sh.episodes.filter (fun ep => matches_theme theme ep.title ep.summary)).map
                    MediaItem.episode)
            | _ => [])
        else []
      let movieItems : List MediaItem :=
        if include_movies then
          sections.flatMap (fun sec =>
            match sec with
            | LibSection.movieSection _ movies =>
                (movies.filter (fun mv => matches_theme theme mv.title mv.summary)).map
                  MediaItem.movie
            | _ => [])
        else []
      Except.ok (tvItems ++ movieItems)

/-- The `MUSICAL_EPISODES` dictionary (src lines 83-115): show title to the
episode-title fragments that qualify. -/
def MUSICAL_EPISODES : List (PyStr × List PyStr) :=
  [ (str "Buffy the Vampire Slayer", [str "Once More, with Feeling"]),
    (str "Scrubs", [str "My Musical"]),
    (str "Community", [str "Regional Holiday Music"]),
    (str "Psych", [str "Psych: The Musical", str "The Musical"]),
    (str "Grey's Anatomy", [str "Song Beneath the Song"]),
    (str "The Flash", [str "Duet"]),
    (str "Lucifer", [str "Bloody Celestial Karaoke Jam"]),
    (str "It's Always Sunny in Philadelphia",
      [str "The Nightman Cometh", str "The Gang Turns Black"]),
    (str "How I Met Your Mother", [str "Girls Versus Suits", str "Girls vs. Suits"]),
    (str "That '70s Show", [str "That '70s Musical"]),
    (str "Fringe", [str "Brown Betty"]),
    (str "Batman: The Brave and the Bold", [str "Mayhem of the Music Meister"]),
    (str "The Simpsons", [str "All Singing, All Dancing"]),
    (str "South Park", [str "Elementary School Musical"]),
    (str "Bob's Burgers", [str "Work Hard or Die Trying", str "Glued, Where's My Bob"]),
    (str "Xena: Warrior Princess", [str "The Bitter Suite", str "Lyre, Lyre"]),
    (str "Riverdale",
      [str "A Night to Remember", str "Wicked Little Town", str "Next to Normal"]),
    (str "Even Stevens", [str "Influenza: The Musical"]),
    (str "7th Heaven", [str "Red Socks"]),
    (str "Daria", [str "Daria!"]),
    (str "Lexx", [str "Brigadoom"]),
    (str "The Drew Carey Show", [str "Drew and Kate's Duet"]),
    (str "Hercules: The Legendary Journeys", [str "...And Fancy Free"]),
    (str "Oz", [str "Variety"]),
    (str "Once Upon a Time", [str "The Song in Your Heart"]),
    (str "The Magicians", [str "All That Josh", str "A Life in the Day"]),
    (str "Supergirl", [str "Duet"]),
    (str "Legacies", [str "Salvatore: The Musical!"]),
    (str "Supernatural", [str "Fan Fiction"]),
    (str "Chicago Hope", [str "Brain Salad Surgery"]) ]

/-- The `MUSICAL_SERIES` list (src lines 118-129): shows every episode of
which qualifies. -/
def MUSICAL_SERIES : List PyStr :=
  [ str "Zoey's Extraordinary Playlist",
    str "Crazy Ex-Girlfriend",
    str "Flight of the Conchords",
    str "Galavant",
    str "Smash",
    str "Glee",
    str "Schmigadoon!",
    str "High School Musical: The Musical: The Series",
    str "Julie and the Phantoms",
    str "Katy Keene" ]

/-- The body of the per-show loop of `find_musical_episodes` (src lines
205-224): a full musical series contributes every episode; a show keyed in
`MUSICAL_EPISODES` contributes each episode whose title contains some target
fragment case-insensitively (the inner loop breaks at the first matching
fragment, so each episode is appended at most once — this is `List.filter`
with an `any` predicate); other shows contribute nothing. -/
def musicalItemsForShow (sh : TVShow) : List Episode :=
  if sh.title ∈ MUSICAL_SERIES then
    sh.episodes
  else
    match MUSICAL_EPISODES.lookup sh.title with
    | some target_titles =>
        sh.episodes.filter (fun ep =>
          target_titles.any (fun target => pyIn (pyLower target) (pyLower ep.title)))
    | none => []

/-- The selector `find_musical_episodes(plex)` (src lines 195-226): scan every
show-type section, every show, in enumeration order. -/
def find_musical_episodes (sections : List LibSection) : List Episode :=
  sections.flatMap (fun sec =>
    match sec with
    | LibSection.showSection _ shows => shows.flatMap musicalItemsForShow
    | _ => [])

/-- A playlist on the server: its title and its items in order. -/
structure Playlist where
  title : PyStr
  items : List MediaItem
deriving DecidableEq

/-- One mutating call against the Plex server issued by the playlist
materializer: `playlist.delete()` or `plex.createPlaylist(name, items)`. -/
inductive ServerOp where
  | deletePlaylist (title : PyStr)
  | createPlaylist (name : PyStr) (items : List MediaItem)
deriving DecidableEq

/-- The materializer `create_or_update_playlist(plex, name, items)` (src
lines 229-245): find the first existing playlist whose title equals `name`
and delete it; then, if `items` is non-empty, create the playlist and return
it, else return `None`. The result pairs the trace of server mutations, in
the order they are issued, with the returned value. -/
def create_or_update_playlist (playlists : List Playlist) (name : PyStr)
    (items : List MediaItem) : List ServerOp × Option Playlist :=
  let deleteOps : List ServerOp :=
    match playlists.find? (fun p => p.title == name) with
    | some p => [ServerOp.deletePlaylist p.title]
    | none => []
  if items.isEmpty then
    (deleteOps, none)
  else
    (deleteOps ++ [ServerOp.createPlaylist name items], some { title := name, items := items })

/-- Modelled from the spec: the movie view read by the rating filter of
spec section 4.3, which is absent from src/ ("variant present in one
version"): title, critic rating, audience rating (a missing rating reads as
0) and the watched flag. Ratings are modelled as rationals. -/
structure RatedMovie where
  title : PyStr
  rating : ℚ
  audienceRating : ℚ
  watched : Bool
deriving DecidableEq

/-- The best rating of a movie: `max(rating, audienceRating)`. -/
def bestRating (m : RatedMovie) : ℚ := max m.rating m.audienceRating

/-- Descending-by-best-rating comparison used to sort the rating filter's
output. -/
def ratedGE (a b : RatedMovie) : Prop := bestRating b ≤ bestRating a

instance : DecidableRel ratedGE :=
  fun a b => inferInstanceAs (Decidable (bestRating b ≤ bestRating a))

instance : IsTotal RatedMovie ratedGE :=
  ⟨fun a b => le_total (bestRating b) (bestRating a)⟩

instance : IsTrans RatedMovie ratedGE :=
  ⟨fun _ _ _ hab hbc => le_trans hbc hab⟩

/-- Modelled from the spec: `find_highly_rated_unwatched(library, min_rating)`
of spec section 4.3 is absent from src/. Keep the unwatched movies whose best
rating is at least the threshold, sorted descending by best rating; ties keep
the underlying enumeration order (stable insertion sort). -/
def find_highly_rated_unwatched (movies : List RatedMovie) (min_rating : ℚ) :
    List RatedMovie :=
  List.insertionSort ratedGE
    (movies.filter (fun m => !m.watched && decide (min_rating ≤ bestRating m)))

/-- Test fixture: a theme with a single inclusion keyword and no exclusions,
to probe how the matcher combines title and summary. -/
def kwOnlyTheme (kw : PyStr) : Theme :=
  { keywords := [kw], exclude := [], description := [] }

/-- Test fixture: an episode of the Scrubs musical episode, with a title-cut
suffix, as in the spec's substring-matching example. -/
def scrubsMusicalEp : Episode :=
  { title := str "My Musical (Director's Cut)", summary := str "",
    seasonNumber := 6, episodeNumber := 6 }

/-- Test fixture: a non-musical Scrubs episode. -/
def scrubsOtherEp : Episode :=
  { title := str "My Mentor", summary := str "", seasonNumber := 1, episodeNumber := 2 }

/-- Test fixture: a Scrubs show holding both fixture episodes. -/
def scrubsShow : TVShow :=
  { title := str "Scrubs", episodes := [scrubsMusicalEp, scrubsOtherEp] }

/-- Test fixture: a pre-existing playlist on the server. -/
def samplePlaylist : Playlist :=
  { title := str "Christmas Episodes",
    items := [MediaItem.movie { title := str "Elf", summary := str "" }] }

/-- Test fixture: an item to put into a new playlist. -/
def sampleItem : MediaItem :=
  MediaItem.movie { title := str "Home Alone", summary := str "" }

/-- Test fixture: unwatched movie rated 8.5 (spec section 8 example). -/
def exMovieA : RatedMovie :=
  { title := str "A", rating := 8.5, audienceRating := 0, watched := false }

/-- Test fixture: watched movie rated 9.0 (spec section 8 example). -/
def exMovieB : RatedMovie :=
  { title := str "B", rating := 9, audienceRating := 0, watched := true }

/-- Test fixture: unwatched movie with audience rating 8.2 (spec section 8
example). -/
def exMovieC : RatedMovie :=
  { title := str "C", rating := 0, audienceRating := 8.2, watched := false }

/-- ASCII case folding absorbs upper-casing: lower-casing after upper-casing a
code point gives the same result as lower-casing it directly. -/
theorem lowerChar_upperChar (c : Nat) : lowerChar (upperChar c) = lowerChar c := by
  unfold lowerChar upperChar
  split_ifs <;> omega

/-- Lower-casing a string absorbs a prior upper-casing. -/
theorem pyLower_pyUpper (s : PyStr) : pyLower (pyUpper s) = pyLower s := by
  unfold pyLower pyUpper
  rw [List.map_map]
  exact List.map_congr_left fun c _ => lowerChar_upperChar c

/-- The combined lower-cased text of `matches_theme` does not change when the
title and summary are upper-cased first. -/
theorem combined_pyUpper (title summary : PyStr) :
    combined (pyUpper title) (pyUpper summary) = combined title summary := by
  unfold combined pyLower
  simp only [List.map_append]
  rw [show (pyUpper title).map lowerChar = pyLower (pyUpper title) from rfl,
    show (pyUpper summary).map lowerChar = pyLower (pyUpper summary) from rfl,
    pyLower_pyUpper, pyLower_pyUpper]
  rfl

/-- C2: for every title, summary and theme, `matches_theme` returns false
whenever some exclusion keyword of the theme (lower-cased) occurs as a
substring of the lower-cased combined title+summary text, regardless of any
inclusion keyword hit: exclusions take absolute precedence. -/
theorem matches_theme_exclusion_false (theme : Theme) (title summary : PyStr)
    (h : ∃ exc ∈ theme.exclude, pyIn (pyLower exc) (combined title summary) = true) :
    matches_theme theme title summary = false := by
  have hx : theme.exclude.any (fun exc => pyIn (pyLower exc) (combined title summary)) = true :=
    List.any_eq_true.mpr h
  simp [matches_theme, hx]

/-- Witness for C2, the spec's own example: the christmas exclusion
"halloween" fires on the title "Halloween Christmas Special" even though the
inclusion keyword "christmas" is present. -/
theorem matches_theme_exclusion_false_witness :
    matches_theme christmas (str "Halloween Christmas Special") (str "") = false :=
  matches_theme_exclusion_false christmas (str "Halloween Christmas Special") (str "")
    ⟨str "halloween", by decide, by decide⟩

/-- C3: for every title, summary and theme with no exclusion-keyword hit on
the lower-cased combined text, `matches_theme` returns true iff at least one
inclusion keyword (lower-cased) is a substring of that text. -/
theorem matches_theme_no_exclusion_iff (theme : Theme) (title summary : PyStr)
    (h : ∀ exc ∈ theme.exclude, pyIn (pyLower exc) (combined title summary) = false) :
    (matches_theme theme title summary = true ↔
      ∃ kw ∈ theme.keywords, pyIn (pyLower kw) (combined title summary) = true) := by
  have hx : theme.exclude.any (fun exc => pyIn (pyLower exc) (combined title summary)) = false := by
    simp only [List.any_eq_false]
    intro exc hexc
    simp [h exc hexc]
  simp [matches_theme, hx, List.any_eq_true]

/-- Witness for C3: "a christmas carol" has no christmas-theme exclusion hit,
and it matches because the inclusion keyword "christmas" is a substring. -/
theorem matches_theme_no_exclusion_iff_witness :
    matches_theme christmas (str "a christmas carol") (str "") = true :=
  (matches_theme_no_exclusion_iff christmas (str "a christmas carol") (str "")
    (by decide)).mpr ⟨str "christmas", by decide, by decide⟩

/-- C4: the keyword matcher is case-insensitive: upper-casing title and
summary never changes the result of `matches_theme`; concretely, the titles
"A CHRISTMAS CAROL" and "a christmas carol" (empty summary) match the
christmas theme equally, and both match. -/
theorem matches_theme_case_insensitive :
    (∀ (theme : Theme) (title summary : PyStr),
      matches_theme theme (pyUpper title) (pyUpper summary) = matches_theme theme title summary)
    ∧ matches_theme christmas (str "A CHRISTMAS CAROL") (str "")
        = matches_theme christmas (str "a christmas carol") (str "")
    ∧ matches_theme christmas (str "A CHRISTMAS CAROL") (str "") = true := by
  refine ⟨fun theme title summary => ?_, by decide, by decide⟩
  unfold matches_theme
  rw [combined_pyUpper]

/-- C5: a show whose title is in the full-musical-series list contributes
every one of its episodes: its per-show contribution is exactly its episode
list, and inside a scanned section the selector's output contains exactly
those N episodes for that show. -/
theorem musical_series_all_episodes (sh : TVShow) (h : sh.title ∈ MUSICAL_SERIES) :
    musicalItemsForShow sh = sh.episodes ∧
    ∀ (t : PyStr) (pre post : List TVShow),
      find_musical_episodes [LibSection.showSection t (pre ++ sh :: post)] =
        pre.flatMap musicalItemsForShow ++ sh.episodes ++ post.flatMap musicalItemsForShow := by
  have h1 : musicalItemsForShow sh = sh.episodes := by
    simp [musicalItemsForShow, h]
  refine ⟨h1, fun t pre post => ?_⟩
  simp [find_musical_episodes, List.flatMap_append, List.flatMap_cons, h1, List.append_assoc]

/-- Witness for C5: a two-episode Glee library contributes exactly its two
episodes. -/
theorem musical_series_all_episodes_witness :
    musicalItemsForShow
        { title := str "Glee",
          episodes :=
            [ { title := str "Pilot", summary := str "", seasonNumber := 1, episodeNumber := 1 },
              { title := str "Showmance", summary := str "", seasonNumber := 1,
                episodeNumber := 2 } ] }
      = [ { title := str "Pilot", summary := str "", seasonNumber := 1, episodeNumber := 1 },
          { title := str "Showmance", summary := str "", seasonNumber := 1,
            episodeNumber := 2 } ] :=
  (musical_series_all_episodes _ (by decide)).1

/-- C6: a show keyed in the specific-episode table (and not a full musical
series) contributes an episode iff some target fragment of the table occurs
case-insensitively as a substring of the episode title, and each episode is
appended at most once however many fragments match. -/
theorem musical_specific_episodes (sh : TVShow) (targets : List PyStr)
    (h1 : sh.title ∉ MUSICAL_SERIES)
    (h2 : MUSICAL_EPISODES.lookup sh.title = some targets) :
    (∀ ep : Episode,
        ep ∈ musicalItemsForShow sh ↔
          ep ∈ sh.episodes ∧ ∃ target ∈ targets, pyIn (pyLower target) (pyLower ep.title) = true)
    ∧ ∀ ep : Episode, (musicalItemsForShow sh).count ep ≤ sh.episodes.count ep := by
  have hdef : musicalItemsForShow sh = sh.episodes.filter (fun ep =>
      targets.any (fun target => pyIn (pyLower target) (pyLower ep.title))) := by
    simp [musicalItemsForShow, h1, h2]
  constructor
  · intro ep
    rw [hdef, List.mem_filter, List.any_eq_true]
  · intro ep
    rw [hdef]
    exact (List.filter_sublist _).count_le ep

/-- Witness for C6, the spec's substring example: the Scrubs episode titled
"My Musical (Director's Cut)" is selected because the target fragment
"My Musical" occurs in its title. -/
theorem musical_specific_episodes_witness :
    scrubsMusicalEp ∈ musicalItemsForShow scrubsShow :=
  ((musical_specific_episodes scrubsShow [str "My Musical"] (by decide) (by decide)).1
      scrubsMusicalEp).mpr
    ⟨by decide, str "My Musical", by decide, by decide⟩

/-- C7: with a non-empty item list and a pre-existing playlist of the same
name, the materializer issues exactly one deletion, the deletion precedes the
creation (the trace is the deletion followed by the creation and nothing
else), and the created playlist holds exactly the given items in order. -/
theorem create_or_update_replaces (playlists : List Playlist) (name : PyStr)
    (items : List MediaItem) (hne : items ≠ [])
    (hex : ∃ p ∈ playlists, p.title = name) :
    (create_or_update_playlist playlists name items).1
        = [ServerOp.deletePlaylist name, ServerOp.createPlaylist name items]
    ∧ ((create_or_update_playlist playlists name items).1).count
        (ServerOp.deletePlaylist name) = 1
    ∧ (create_or_update_playlist playlists name items).2
        = some { title := name, items := items } := by
  obtain ⟨p, hp, hpt⟩ := hex
  have hfind : (playlists.find? (fun q => q.title == name)).isSome :=
    List.find?_isSome.mpr ⟨p, hp, by simp [hpt]⟩
  obtain ⟨q, hq⟩ := Option.isSome_iff_exists.mp hfind
  have hqt : q.title = name := by simpa using List.find?_some hq
  have hni : items.isEmpty = false := by
    cases items with
    | nil => exact absurd rfl hne
    | cons a l => rfl
  have hmain : (create_or_update_playlist playlists name items).1
      = [ServerOp.deletePlaylist name, ServerOp.createPlaylist name items] := by
    simp [create_or_update_playlist, hq, hqt, hni]
  refine ⟨hmain, ?_, ?_⟩
  · rw [hmain]
    simp [List.count_cons]
  · simp [create_or_update_playlist, hq, hni]

/-- Witness for C7: replacing the fixture playlist "Christmas Episodes" with
a one-item list issues the delete, then the create. -/
theorem create_or_update_replaces_witness :
    (create_or_update_playlist [samplePlaylist] (str "Christmas Episodes") [sampleItem]).1
      = [ServerOp.deletePlaylist (str "Christmas Episodes"),
         ServerOp.createPlaylist (str "Christmas Episodes") [sampleItem]] :=
  (create_or_update_replaces [samplePlaylist] (str "Christmas Episodes") [sampleItem]
      (by decide) ⟨samplePlaylist, by decide, by decide⟩).1

/-- Counterexample to C1: calling the materializer with an empty item list
while a playlist of the given name exists does mutate the server — the
pre-existing playlist is deleted (the trace is non-empty) even though `None`
is returned. -/
theorem create_or_update_empty_still_deletes :
    (create_or_update_playlist [samplePlaylist] (str "Christmas Episodes") []).1
        = [ServerOp.deletePlaylist (str "Christmas Episodes")]
    ∧ (create_or_update_playlist [samplePlaylist] (str "Christmas Episodes") []).1 ≠ []
    ∧ (create_or_update_playlist [samplePlaylist] (str "Christmas Episodes") []).2 = none := by
  refine ⟨by decide, by decide, by decide⟩

/-- C1 as amended: with an empty item list the materializer creates nothing
and returns `None` (the "nothing to do" signal), but it still deletes a
pre-existing playlist of the given name first: the trace holds no creation
and is either empty or exactly one deletion of that name. -/
theorem create_or_update_empty_no_create (playlists : List Playlist) (name : PyStr) :
    (create_or_update_playlist playlists name []).2 = none
    ∧ (∀ op ∈ (create_or_update_playlist playlists name []).1,
        ∀ (n : PyStr) (its : List MediaItem), op ≠ ServerOp.createPlaylist n its)
    ∧ ((create_or_update_playlist playlists name []).1 = []
        ∨ (create_or_update_playlist playlists name []).1 = [ServerOp.deletePlaylist name]) := by
  cases hfind : playlists.find? (fun p => p.title == name) with
  | none => simp [create_or_update_playlist, hfind]
  | some p =>
      have hpt : p.title = name := by simpa using List.find?_some hfind
      simp [create_or_update_playlist, hfind, hpt]

/-- Witness for C1 as amended, at a concrete server state with a
name-colliding playlist: `None` comes back and no creation is issued. -/
theorem create_or_update_empty_no_create_witness :
    (create_or_update_playlist [samplePlaylist] (str "Christmas Episodes") []).2 = none
    ∧ ((create_or_update_playlist [samplePlaylist] (str "Christmas Episodes") []).1 = []
        ∨ (create_or_update_playlist [samplePlaylist] (str "Christmas Episodes") []).1
            = [ServerOp.deletePlaylist (str "Christmas Episodes")]) :=
  ⟨(create_or_update_empty_no_create [samplePlaylist] (str "Christmas Episodes")).1,
    (create_or_update_empty_no_create [samplePlaylist] (str "Christmas Episodes")).2.2⟩

/-- C8: an unknown theme identifier makes `find_themed_content` terminate
fatally with the message naming the unknown theme and the list of all valid
theme identifiers, and no item list is returned. -/
theorem find_themed_content_unknown_theme (sections : List LibSection) (theme_name : PyStr)
    (include_movies include_tv : Bool)
    (h : THEMES.lookup theme_name = none) :
    find_themed_content sections theme_name include_movies include_tv
        = Except.error (str "Unknown theme: " ++ theme_name, availableThemesMessage)
    ∧ availableThemesMessage
        = str "Available themes: christmas, halloween, thanksgiving, newyears, hanukkah, valentine, july4th"
    ∧ ∀ items : List MediaItem,
        find_themed_content sections theme_name include_movies include_tv ≠ Except.ok items := by
  have hmain : find_themed_content sections theme_name include_movies include_tv
      = Except.error (str "Unknown theme: " ++ theme_name, availableThemesMessage) := by
    unfold find_themed_content
    rw [h]
  refine ⟨hmain, by decide, fun items hcontra => ?_⟩
  rw [hmain] at hcontra
  exact Except.noConfusion hcontra

/-- Witness for C8: the identifier "easter" is not a theme; the selector
signals the fatal unknown-theme error. -/
theorem find_themed_content_unknown_theme_witness :
    find_themed_content [] (str "easter") true true
      = Except.error (str "Unknown theme: " ++ str "easter", availableThemesMessage) :=
  (find_themed_content_unknown_theme [] (str "easter") true true (by decide)).1

/-- A needle free of the separator that is a prefix of `a ++ 32 :: b` is a
prefix of `a` alone. -/
theorem prefix_drop_sep (b : List Nat) :
    ∀ (n a : List Nat), 32 ∉ n → n <+: a ++ 32 :: b → n <+: a
  | [], _, _, _ => List.nil_prefix
  | c :: n, [], hs, h => by
      rw [List.nil_append, List.cons_prefix_cons] at h
      obtain ⟨rfl, -⟩ := h
      exact absurd (List.mem_cons_self _ _) hs
  | c :: n, x :: a, hs, h => by
      rw [List.cons_append, List.cons_prefix_cons] at h
      have hn : 32 ∉ n := fun hm => hs (List.mem_cons_of_mem _ hm)
      exact List.cons_prefix_cons.mpr ⟨h.1, prefix_drop_sep b n a hn h.2⟩

/-- A needle free of the separator code point 32 occurs inside `a ++ 32 :: b`
iff it occurs inside `a` or inside `b`: no match can span the separator. -/
theorem infix_sep_iff (n b : List Nat) (hs : 32 ∉ n) :
    ∀ a : List Nat, (n <:+: a ++ 32 :: b ↔ n <:+: a ∨ n <:+: b)
  | [] => by
      rw [List.nil_append, List.infix_cons_iff]
      constructor
      · rintro (hp | hi)
        · cases n with
          | nil => exact Or.inr List.nil_infix
          | cons c n2 =>
              rw [List.cons_prefix_cons] at hp
              obtain ⟨rfl, -⟩ := hp
              exact absurd (List.mem_cons_self _ _) hs
        · exact Or.inr hi
      · rintro (ha | hb)
        · rw [List.infix_nil] at ha
          subst ha
          exact Or.inr List.nil_infix
        · exact Or.inr hb
  | x :: a => by
      rw [List.cons_append, List.infix_cons_iff, List.infix_cons_iff, infix_sep_iff n b hs a]
      constructor
      · rintro (hp | hi | hb2)
        · cases n with
          | nil => exact Or.inl (Or.inl List.nil_prefix)
          | cons c n2 =>
              rw [List.cons_prefix_cons] at hp
              have hn : 32 ∉ n2 := fun hm => hs (List.mem_cons_of_mem _ hm)
              exact Or.inl (Or.inl
                (List.cons_prefix_cons.mpr ⟨hp.1, prefix_drop_sep b n2 a hn hp.2⟩))
        · exact Or.inl (Or.inr hi)
        · exact Or.inr hb2
      · rintro ((hp | hi) | hb2)
        · exact Or.inl
            (hp.trans (List.cons_prefix_cons.mpr ⟨rfl, List.prefix_append a (32 :: b)⟩))
        · exact Or.inr (Or.inl hi)
        · exact Or.inr (Or.inr hb2)

/-- Lower-casing a code point yields the space code point only from the space
code point itself. -/
theorem lowerChar_eq_space_iff (c : Nat) : lowerChar c = 32 ↔ c = 32 := by
  unfold lowerChar
  split_ifs <;> omega

/-- A keyword without a space stays without a space when lower-cased. -/
theorem pyLower_no_space {kw : PyStr} (h : 32 ∉ kw) : 32 ∉ pyLower kw := by
  intro hm
  obtain ⟨c, hc, he⟩ := List.mem_map.mp hm
  obtain rfl := (lowerChar_eq_space_iff c).mp he
  exact h hc

/-- The combined text of `matches_theme` is the lower-cased title, then the
space code point 32, then the lower-cased summary. -/
theorem combined_eq_sep (title summary : PyStr) :
    combined title summary = pyLower title ++ 32 :: pyLower summary := by
  unfold combined pyLower
  rw [List.map_append, List.map_append, List.append_assoc]
  rfl

/-- A keyword without a space hits the combined text iff it hits the
lower-cased title or the lower-cased summary on its own. -/
theorem pyIn_combined_of_no_space (kw title summary : PyStr) (h : 32 ∉ pyLower kw) :
    pyIn (pyLower kw) (combined title summary)
      = (pyIn (pyLower kw) (pyLower title) || pyIn (pyLower kw) (pyLower summary)) := by
  rw [combined_eq_sep]
  unfold pyIn
  rw [← Bool.decide_or]
  exact decide_eq_decide.mpr (infix_sep_iff (pyLower kw) (pyLower summary) h (pyLower title))

/-- C10: the matcher tests substrings of title, one space, summary
(lower-cased), not of the direct concatenation: the combined text carries the
separating space; a space-free keyword can only hit inside the title or
inside the summary; a keyword spanning the boundary without the space (such
as "ab" against title "a", summary "b") misses although it would hit the
direct concatenation, while a keyword carrying the boundary space ("a b")
hits. -/
theorem matches_theme_space_separated :
    (∀ title summary : PyStr, combined title summary = pyLower title ++ 32 :: pyLower summary)
    ∧ (∀ kw title summary : PyStr, 32 ∉ kw →
        pyIn (pyLower kw) (combined title summary)
          = (pyIn (pyLower kw) (pyLower title) || pyIn (pyLower kw) (pyLower summary)))
    ∧ matches_theme (kwOnlyTheme (str "ab")) (str "a") (str "b") = false
    ∧ pyIn (pyLower (str "ab")) (pyLower (str "a" ++ str "b")) = true
    ∧ matches_theme (kwOnlyTheme (str "a b")) (str "a") (str "b") = true :=
  ⟨combined_eq_sep,
    fun kw title summary h => pyIn_combined_of_no_space kw title summary (pyLower_no_space h),
    by decide, by decide, by decide⟩

/-- Witness for C10: the space-free keyword "ab" hits the combined text of
title "a" and summary "b" exactly when it hits one of the two parts — here
neither, so both sides are false. -/
theorem matches_theme_space_separated_witness :
    pyIn (pyLower (str "ab")) (combined (str "a") (str "b"))
      = (pyIn (pyLower (str "ab")) (pyLower (str "a"))
          || pyIn (pyLower (str "ab")) (pyLower (str "b"))) :=
  matches_theme_space_separated.2.1 (str "ab") (str "a") (str "b") (by decide)

/-- C9: the rating filter returns exactly the unwatched movies whose best
rating `max(rating, audienceRating)` reaches the threshold, sorted descending
by best rating; on the spec's example with threshold 8.0 it returns the 8.5
and 8.2 movies in that order and drops the watched 9.0 one. -/
theorem find_highly_rated_unwatched_spec :
    (∀ (movies : List RatedMovie) (min_rating : ℚ),
        (find_highly_rated_unwatched movies min_rating).Perm
            (movies.filter (fun m => !m.watched && decide (min_rating ≤ bestRating m)))
        ∧ List.Sorted ratedGE (find_highly_rated_unwatched movies min_rating)
        ∧ ∀ m : RatedMovie,
            m ∈ find_highly_rated_unwatched movies min_rating ↔
              m ∈ movies ∧ m.watched = false ∧ min_rating ≤ bestRating m)
    ∧ find_highly_rated_unwatched [exMovieA, exMovieB, exMovieC] 8 = [exMovieA, exMovieC] := by
  constructor
  · intro movies min_rating
    refine ⟨List.perm_insertionSort ratedGE _, List.sorted_insertionSort ratedGE _, fun m => ?_⟩
    unfold find_highly_rated_unwatched
    rw [(List.perm_insertionSort ratedGE _).mem_iff, List.mem_filter]
    simp [Bool.and_eq_true, Bool.not_eq_true', decide_eq_true_iff, and_assoc]
  · norm_num [find_highly_rated_unwatched, exMovieA, exMovieB, exMovieC, bestRating, ratedGE,
      List.insertionSort, List.orderedInsert, List.filter]

end PlexPlaylist
